import Mathlib

/-!
Verification of the face-match attendance workflow of the student-app
repository (src/index.tsx): the attendance recorder (`recordAttendance`
inside `executeAttendance`), the recognition loop with its per-identity
cooldown and global processing guard (`startDetectionLoop`,
`startFastAttendance`), and the registration quality gate
(`startFaceDetection`). Machine timestamps are modelled as `Nat`
milliseconds, time-of-day and date values as the zero-padded strings the
code compares lexicographically, and bounding-box geometry as `ℚ`.
-/

namespace StudentApp

/-- JavaScript string `<`: lexicographic comparison of code units. The
app only compares zero-padded ASCII `HH:MM` strings, for which code-unit
order and codepoint order agree. -/
def strLtb : List Char → List Char → Bool
  | _, [] => false
  | [], _ :: _ => true
  | c :: cs, d :: ds =>
      if c.toNat < d.toNat then true
      else if d.toNat < c.toNat then false
      else strLtb cs ds

/-- `a < b` on JavaScript strings. -/
def jsLt (a b : String) : Bool := strLtb a.data b.data

/-- The `status` field of an `AttendanceRecord` (src/index.tsx:28). -/
inductive Status
  | present
  | late
  | absent
  | earlyLeave
deriving DecidableEq, Repr, Inhabited

/-- One attendance row (src/index.tsx:24-29 together with the
`student_id` key added at src/index.tsx:119). `checkIn`/`checkOut` are
`null`-able time-of-day strings. -/
structure AttendanceRecord where
  student_id : Nat
  date : String
  checkIn : Option String
  checkOut : Option String
  status : Status
deriving DecidableEq, Repr, Inhabited

/-- The two settings the recorder reads (src/index.tsx:113-114). -/
structure Settings where
  lateTime : String
  checkOutTime : String
deriving DecidableEq, Repr

/-- The screen mode, fixed for the lifetime of one attendance screen. -/
inductive Mode
  | checkin
  | checkout
deriving DecidableEq, Repr

/-- The two failure results of `recordAttendance`
(src/index.tsx:870 and 885): the duplicate check-in error carries the
existing record's `checkIn` value interpolated into its message. -/
inductive CommitError
  | alreadyCheckedIn (existingCheckIn : Option String)
  | noCheckInFound
deriving DecidableEq, Repr

/-- Result of one commit: `{time, status}` on success, `{error}` on
failure (src/index.tsx:853-888). -/
inductive CommitResult
  | ok (time : String) (status : Status)
  | err (e : CommitError)
deriving DecidableEq, Repr

/-- The predicate of the `findIndex` call at src/index.tsx:858:
`a.student_id === student.id && a.date === today`. -/
def matchesToday (sid : Nat) (today : String) (a : AttendanceRecord) : Bool :=
  a.student_id == sid && a.date == today

/-- JavaScript `Array.prototype.findIndex`, with `-1` rendered as
`none`. -/
def findIndex {α : Type} (p : α → Bool) : List α → Option Nat
  | [] => none
  | a :: as => if p a then some 0 else (findIndex p as).map (· + 1)

/-- The `recordAttendance` closure inside `executeAttendance`
(src/index.tsx:855-888), with `today` and `timeNow` passed explicitly.
The status is computed up front by the two mode-guarded `if`s
(src/index.tsx:861-866), then the mode branch either inserts a fresh
record (`unshift`), rejects a duplicate check-in quoting the existing
`checkIn`, updates the found record on check-out (never overwriting a
`Late` status, src/index.tsx:880), or rejects a check-out with no
record. -/
def recordAttendance (mode : Mode) (s : Settings) (store : List AttendanceRecord)
    (sid : Nat) (today timeNow : String) : CommitResult × List AttendanceRecord :=
  let existingRecordIndex := findIndex (matchesToday sid today) store
  let status1 : Status := if mode = .checkin ∧ jsLt s.lateTime timeNow then .late else .present
  let status : Status :=
    if mode = .checkout ∧ jsLt timeNow s.checkOutTime then .earlyLeave else status1
  match mode, existingRecordIndex with
  | .checkin, some idx =>
      (.err (.alreadyCheckedIn (store.getD idx default).checkIn), store)
  | .checkin, none =>
      (.ok timeNow status,
        { student_id := sid, date := today, checkIn := some timeNow,
          checkOut := none, status := status } :: store)
  | .checkout, some idx =>
      let old := store.getD idx default
      let updated : AttendanceRecord :=
        { student_id := old.student_id, date := old.date, checkIn := old.checkIn,
          checkOut := some timeNow,
          status := if old.status ≠ Status.late then status else old.status }
      (.ok timeNow status, store.set idx updated)
  | .checkout, none =>
      (.err .noCheckInFound, store)

/-- Apply a sequence of check-in commits `(sid, today, timeNow)` to the
store, keeping each step's resulting store. -/
def applyCheckins (s : Settings) : List AttendanceRecord → List (Nat × String × String) →
    List AttendanceRecord
  | store, [] => store
  | store, (sid, today, t) :: rest =>
      applyCheckins s (recordAttendance .checkin s store sid today t).2 rest

/-- Number of records in the store for a given student and date. -/
def recCount (store : List AttendanceRecord) (sid : Nat) (d : String) : Nat :=
  (store.filter (matchesToday sid d)).length

/-- Number of records for a given student and date with a non-empty
`checkIn`. -/
def checkedInCount (store : List AttendanceRecord) (sid : Nat) (d : String) : Nat :=
  (store.filter (fun a => matchesToday sid d a && a.checkIn.isSome)).length

/-- Data-model invariant (spec §3): at most one record per
(studentId, date). -/
def AtMostOnePerDay (store : List AttendanceRecord) : Prop :=
  ∀ sid d, recCount store sid d ≤ 1

/-- Ephemeral recognition-session state (src/index.tsx:703-707): the
per-identity cooldown map `recognitionCooldownRef` (studentId keyed, last
trigger timestamp in ms) and the global `isProcessingRef` flag. -/
structure LoopState where
  cooldown : List (Nat × Nat)
  processing : Bool
deriving DecidableEq, Repr

/-- Read `recognitionCooldownRef.current[key]` (src/index.tsx:796). -/
def cooldownGet (m : List (Nat × Nat)) (sid : Nat) : Option Nat :=
  (m.find? (fun p => p.1 == sid)).map (fun p => p.2)

/-- Write `recognitionCooldownRef.current[key] = now`
(src/index.tsx:797). -/
def cooldownSet (m : List (Nat × Nat)) (sid ts : Nat) : List (Nat × Nat) :=
  match m with
  | [] => [(sid, ts)]
  | (k, v) :: rest => if k == sid then (k, ts) :: rest else (k, v) :: cooldownSet rest sid ts

/-- The cooldown guard of src/index.tsx:796:
`!cooldown[key] || now - cooldown[key] > 8000`. JavaScript subtraction of
increasing `Date.now()` values agrees with truncated `Nat` subtraction on
the `> 8000` test. -/
def cooldownElapsed (m : List (Nat × Nat)) (sid now : Nat) : Bool :=
  match cooldownGet m sid with
  | none => true
  | some last => now - last > 8000

/-- `startFastAttendance` (src/index.tsx:843-850) up to its state
effects: bail out if `isProcessingRef.current` is set, otherwise set it
and schedule `executeAttendance` after 500 ms. The returned Bool records
whether a commit attempt was started. -/
def startFastAttendance (st : LoopState) : LoopState × Bool :=
  if st.processing then (st, false)
  else ({ st with processing := true }, true)

/-- Handling of one recognized identity inside the detection tick
(src/index.tsx:794-801): if the cooldown window has elapsed (or no
timestamp is stored), the timestamp is reset to `now` and
`startFastAttendance` runs; otherwise nothing happens. The Bool records
whether a commit attempt was started. -/
def handleRecognized (st : LoopState) (sid now : Nat) : LoopState × Bool :=
  if cooldownElapsed st.cooldown sid now then
    startFastAttendance { st with cooldown := cooldownSet st.cooldown sid now }
  else (st, false)

/-- One 200 ms detection tick (src/index.tsx:751-829) restricted to its
commit-triggering effects: the tick is skipped outright while
`isProcessingRef.current` is set (src/index.tsx:752); otherwise every
recognized identity of this frame is handled in order. Returns the new
state and the number of commit attempts started. -/
def loopTick (st : LoopState) (recognized : List Nat) (now : Nat) : LoopState × Nat :=
  if st.processing then (st, 0)
  else recognized.foldl
    (fun acc sid =>
      let r := handleRecognized acc.1 sid now
      (r.1, acc.2 + if r.2 then 1 else 0))
    (st, 0)

/-- Detection-concurrency state: the global processing flag together
with the number of `faceapi.detectAllFaces` calls currently awaiting a
response. -/
structure DetState where
  processing : Bool
  outstanding : Nat
deriving DecidableEq, Repr

/-- Events of the detection-concurrency model: the 200 ms interval timer
fires, or an outstanding detection call completes. -/
inductive DetEvent
  | timerFire
  | detComplete
deriving DecidableEq, Repr

/-- One event step. A firing tick checks only the guard of
src/index.tsx:752 — whose sole state-dependent conjunct is
`isProcessingRef.current` — before awaiting `detectAllFaces`
(src/index.tsx:758); no flag records that a detection call is already
outstanding, so a tick that passes the guard always issues a new call. -/
def detStep (s : DetState) : DetEvent → DetState
  | .timerFire => if s.processing then s else { s with outstanding := s.outstanding + 1 }
  | .detComplete => { s with outstanding := s.outstanding - 1 }

/-- Run a sequence of events. -/
def detRun (s : DetState) : List DetEvent → DetState
  | [] => s
  | e :: es => detRun (detStep s e) es

/-- Initial detection state: idle, no call outstanding. -/
def detInit : DetState := ⟨false, 0⟩

/-- A detected face's bounding box (`detection.detection.box`). -/
structure Box where
  width : ℚ
  height : ℚ
deriving DecidableEq, Repr

/-- The status messages of the registration gate tick
(src/index.tsx:1881-1894). -/
inductive RegMsg
  | goodQuality
  | tooSmall
  | tooLarge
  | multipleFaces
  | noFace
deriving DecidableEq, Repr

/-- State set by one registration gate tick: the stored descriptor
(`setFaceDescriptor`), the capture control (`setShowCaptureButton`) and
the guidance message. -/
structure RegOutcome (α : Type) where
  faceDescriptor : Option α
  showCaptureButton : Bool
  message : RegMsg
deriving DecidableEq, Repr

/-- `faceSizeRatio` of src/index.tsx:1880:
`(box.width * box.height) / (video.clientWidth * video.clientHeight)`. -/
def faceSizeRatio (frameW frameH : ℚ) (b : Box) : ℚ :=
  (b.width * b.height) / (frameW * frameH)

/-- One registration quality-gate tick (src/index.tsx:1867-1895),
parameterised by the descriptor type: with exactly one detected face the
ratio test `0.05 < ratio < 0.4` decides between storing the descriptor
and enabling capture versus clearing both with a size message; any other
face count clears both with `multipleFaces`/`noFace`. -/
def regTick {α : Type} (frameW frameH : ℚ) (dets : List (Box × α)) : RegOutcome α :=
  match dets with
  | [d] =>
      let ratio := faceSizeRatio frameW frameH d.1
      if 0.05 < ratio ∧ ratio < 0.4 then ⟨some d.2, true, .goodQuality⟩
      else ⟨none, false, if ratio ≤ 0.05 then .tooSmall else .tooLarge⟩
  | _ => ⟨none, false, if dets.length > 1 then .multipleFaces else .noFace⟩

example : recordAttendance .checkin ⟨"08:30", "16:00"⟩ [] 1 "2026-10-12" "08:45" =
    (.ok "08:45" .late,
      [⟨1, "2026-10-12", some "08:45", none, .late⟩]) := by decide

example : recordAttendance .checkin ⟨"08:30", "16:00"⟩ [] 1 "2026-10-12" "08:15" =
    (.ok "08:15" .present,
      [⟨1, "2026-10-12", some "08:15", none, .present⟩]) := by decide

example : recordAttendance .checkout ⟨"08:30", "16:00"⟩
    [⟨1, "2026-10-12", some "08:45", none, .late⟩] 1 "2026-10-12" "15:30" =
    (.ok "15:30" .earlyLeave,
      [⟨1, "2026-10-12", some "08:45", some "15:30", .late⟩]) := by decide

example : recordAttendance .checkout ⟨"08:30", "16:00"⟩ [] 1 "2026-10-12" "15:30" =
    (.err .noCheckInFound, []) := by decide

example : recordAttendance .checkin ⟨"08:30", "16:00"⟩
    [⟨1, "2026-10-12", some "08:15", none, .present⟩] 1 "2026-10-12" "08:45" =
    (.err (.alreadyCheckedIn (some "08:15")),
      [⟨1, "2026-10-12", some "08:15", none, .present⟩]) := by decide

lemma findIndex_eq_none_iff {α : Type} (p : α → Bool) (l : List α) :
    findIndex p l = none ↔ ∀ x ∈ l, p x = false := by
  induction l with
  | nil => simp [findIndex]
  | cons a as ih =>
      by_cases h : p a <;> simp [findIndex, h, ih, Option.map_eq_none']

lemma findIndex_some_lt {α : Type} (p : α → Bool) (l : List α) (i : Nat)
    (h : findIndex p l = some i) : i < l.length := by
  induction l generalizing i with
  | nil => simp [findIndex] at h
  | cons a as ih =>
      by_cases hp : p a
      · simp [findIndex, hp] at h
        simp only [List.length_cons]
        omega
      · simp [findIndex, hp] at h
        obtain ⟨j, hj, rfl⟩ := h
        have := ih j hj
        simp only [List.length_cons]
        omega

lemma getD_set_self {α : Type} (l : List α) (i : Nat) (a d : α) (h : i < l.length) :
    (l.set i a).getD i d = a := by
  induction l generalizing i with
  | nil => simp at h
  | cons x xs ih =>
      cases i with
      | zero => rfl
      | succ n =>
          simp only [List.set_cons_succ, List.getD_cons_succ]
          exact ih n (by simpa using h)

/-- C2: a check-out commit for a student with no attendance record for
today fails with the no-check-in-found error, and the store is exactly
the same after the failed check-out as before it. -/
theorem checkout_without_checkin (s : Settings) (store : List AttendanceRecord)
    (sid : Nat) (today t : String)
    (h : ∀ a ∈ store, ¬(a.student_id = sid ∧ a.date = today)) :
    recordAttendance .checkout s store sid today t = (.err .noCheckInFound, store) := by
  have hidx : findIndex (matchesToday sid today) store = none := by
    rw [findIndex_eq_none_iff]
    intro x hx
    have := h x hx
    simp [matchesToday]
    intro h1
    exact fun h2 => this ⟨h1, h2⟩
  simp [recordAttendance, hidx]

/-- Witness for C2 at a concrete store. -/
theorem checkout_without_checkin_witness :
    recordAttendance .checkout ⟨"08:30", "16:00"⟩
      [⟨2, "2026-10-12", some "08:15", none, .present⟩] 1 "2026-10-12" "15:30" =
      (.err .noCheckInFound, [⟨2, "2026-10-12", some "08:15", none, .present⟩]) :=
  checkout_without_checkin ⟨"08:30", "16:00"⟩
    [⟨2, "2026-10-12", some "08:15", none, .present⟩] 1 "2026-10-12" "15:30"
    (by intro a ha; simp at ha; subst ha; simp)

lemma checkout_update_eq (s : Settings) (store : List AttendanceRecord)
    (sid : Nat) (today t : String) (idx : Nat)
    (hidx : findIndex (matchesToday sid today) store = some idx) :
    recordAttendance .checkout s store sid today t =
      (.ok t (if jsLt t s.checkOutTime then .earlyLeave else .present),
       store.set idx
         { student_id := (store.getD idx default).student_id,
           date := (store.getD idx default).date,
           checkIn := (store.getD idx default).checkIn,
           checkOut := some t,
           status := if (store.getD idx default).status = Status.late then Status.late
                     else if jsLt t s.checkOutTime then .earlyLeave else .present }) := by
  simp only [recordAttendance, hidx]
  set old := store.getD idx default with hold
  by_cases hl : jsLt t s.checkOutTime <;>
    by_cases hs : old.status = Status.late <;>
      simp [hl, hs]

lemma checkin_success_eq (s : Settings) (store : List AttendanceRecord)
    (sid : Nat) (today t : String)
    (h : findIndex (matchesToday sid today) store = none) :
    recordAttendance .checkin s store sid today t =
      (.ok t (if jsLt s.lateTime t then Status.late else Status.present),
       { student_id := sid, date := today, checkIn := some t, checkOut := none,
         status := if jsLt s.lateTime t then Status.late else Status.present } :: store) := by
  by_cases hl : jsLt s.lateTime t <;> simp [recordAttendance, h, hl]

/-- C3: a check-out commit on an existing record sets `checkOut` to the
current time; the record's status is left `Late` when it was `Late`
(never downgraded to `Early Leave`, even before `checkOutTime`), and is
otherwise recomputed to `Early Leave` before `checkOutTime` and
`Present` from `checkOutTime` on. -/
theorem checkout_never_downgrades_late (s : Settings) (store : List AttendanceRecord)
    (sid : Nat) (today t : String) (idx : Nat)
    (hidx : findIndex (matchesToday sid today) store = some idx) :
    recordAttendance .checkout s store sid today t =
      (.ok t (if jsLt t s.checkOutTime then .earlyLeave else .present),
       store.set idx
         { student_id := (store.getD idx default).student_id,
           date := (store.getD idx default).date,
           checkIn := (store.getD idx default).checkIn,
           checkOut := some t,
           status := if (store.getD idx default).status = Status.late then Status.late
                     else if jsLt t s.checkOutTime then .earlyLeave else .present }) :=
  checkout_update_eq s store sid today t idx hidx

/-- Witness for C3: an early check-out on a `Late` record keeps `Late`. -/
theorem checkout_never_downgrades_late_witness :
    recordAttendance .checkout ⟨"08:30", "16:00"⟩
      [⟨1, "2026-10-12", some "08:45", none, .late⟩] 1 "2026-10-12" "15:30" =
      (.ok "15:30" .earlyLeave,
        [⟨1, "2026-10-12", some "08:45", some "15:30", .late⟩]) := by
  have h := checkout_never_downgrades_late ⟨"08:30", "16:00"⟩
    [⟨1, "2026-10-12", some "08:45", none, .late⟩] 1 "2026-10-12" "15:30" 0 (by decide)
  rw [h]
  decide

/-- C7: a successful check-in creates a record with `checkIn` the
current time, `checkOut` absent, and status `Late` exactly when the
time string compares lexicographically greater than the configured
`lateTime`, else `Present`. -/
theorem checkin_success_record (s : Settings) (store : List AttendanceRecord)
    (sid : Nat) (today t : String)
    (h : findIndex (matchesToday sid today) store = none) :
    recordAttendance .checkin s store sid today t =
      (.ok t (if jsLt s.lateTime t then Status.late else Status.present),
       { student_id := sid, date := today, checkIn := some t, checkOut := none,
         status := if jsLt s.lateTime t then Status.late else Status.present } :: store) :=
  checkin_success_eq s store sid today t h

/-- Witness for C7: a check-in after `lateTime` is `Late`. -/
theorem checkin_success_record_witness :
    recordAttendance .checkin ⟨"08:30", "16:00"⟩ [] 1 "2026-10-12" "08:45" =
      (.ok "08:45" .late, [⟨1, "2026-10-12", some "08:45", none, .late⟩]) := by
  have h := checkin_success_record ⟨"08:30", "16:00"⟩ [] 1 "2026-10-12" "08:45" (by decide)
  rw [h]
  decide

/-- C8 fails on the code: a student already checked out today
(`checkOut = "15:00"`) is checked out again at `"15:30"`, and the commit
succeeds and changes the record — `checkOut` becomes `"15:30"` and the
status is recomputed — instead of being rejected. -/
theorem second_checkout_not_rejected :
    recordAttendance .checkout ⟨"08:30", "16:00"⟩
      [⟨1, "2026-10-12", some "08:15", some "15:00", .present⟩] 1 "2026-10-12" "15:30" =
      (.ok "15:30" .earlyLeave,
        [⟨1, "2026-10-12", some "08:15", some "15:30", .earlyLeave⟩]) := by decide

/-- C8 amended: duplicate commits are rejected only in the check-in
direction. A repeated check-in fails and leaves the store unchanged,
but a repeated check-out for a student who already has a `checkOut`
recorded today succeeds and overwrites `checkOut` with the new time
(recomputing status, `Late` preserved). -/
theorem duplicate_rejection_checkin_only (s : Settings) (store : List AttendanceRecord)
    (sid : Nat) (today t : String) (idx : Nat)
    (hidx : findIndex (matchesToday sid today) store = some idx)
    (_hout : ((store.getD idx default).checkOut).isSome = true) :
    (∃ e, recordAttendance .checkin s store sid today t = (.err e, store))
    ∧ (recordAttendance .checkout s store sid today t).1 =
        .ok t (if jsLt t s.checkOutTime then .earlyLeave else .present)
    ∧ ((recordAttendance .checkout s store sid today t).2.getD idx default).checkOut = some t := by
  refine ⟨⟨.alreadyCheckedIn ((store.getD idx default).checkIn), by simp [recordAttendance, hidx]⟩, ?_, ?_⟩
  · rw [checkout_update_eq s store sid today t idx hidx]
  · rw [checkout_update_eq s store sid today t idx hidx]
    exact congrArg AttendanceRecord.checkOut
      (getD_set_self store idx _ default (findIndex_some_lt _ store idx hidx))

lemma recCount_cons (a : AttendanceRecord) (store : List AttendanceRecord)
    (sid : Nat) (d : String) :
    recCount (a :: store) sid d =
      (if matchesToday sid d a then 1 else 0) + recCount store sid d := by
  by_cases h : matchesToday sid d a <;>
    simp [recCount, List.filter_cons, h, Nat.add_comm]

lemma recCount_eq_zero (store : List AttendanceRecord) (sid : Nat) (d : String)
    (h : ∀ a ∈ store, matchesToday sid d a = false) : recCount store sid d = 0 := by
  induction store with
  | nil => rfl
  | cons a as ih =>
      rw [recCount_cons, h a (List.mem_cons_self a as)]
      simp only [if_neg Bool.false_ne_true, Nat.zero_add]
      exact ih (fun x hx => h x (List.mem_cons_of_mem a hx))

lemma inv_cons (rec : AttendanceRecord) (store : List AttendanceRecord)
    (h : AtMostOnePerDay store)
    (hz : recCount store rec.student_id rec.date = 0) :
    AtMostOnePerDay (rec :: store) := by
  intro sid2 d2
  rw [recCount_cons]
  by_cases hm : matchesToday sid2 d2 rec
  · have heq : rec.student_id = sid2 ∧ rec.date = d2 := by
      simpa [matchesToday] using hm
    rw [if_pos hm, ← heq.1, ← heq.2, hz]
  · rw [if_neg hm, Nat.zero_add]
    exact h sid2 d2

lemma checkin_preserves_inv (s : Settings) (store : List AttendanceRecord)
    (sid : Nat) (today t : String) (h : AtMostOnePerDay store) :
    AtMostOnePerDay (recordAttendance .checkin s store sid today t).2 := by
  cases hidx : findIndex (matchesToday sid today) store with
  | some idx =>
      simpa [recordAttendance, hidx] using h
  | none =>
      have h2 : (recordAttendance .checkin s store sid today t).2 =
          { student_id := sid, date := today, checkIn := some t, checkOut := none,
            status := if jsLt s.lateTime t then Status.late else Status.present } :: store :=
        congrArg Prod.snd (checkin_success_eq s store sid today t hidx)
      rw [h2]
      exact inv_cons _ store h
        (recCount_eq_zero store sid today ((findIndex_eq_none_iff _ _).mp hidx))

lemma applyCheckins_inv (s : Settings) (cmds : List (Nat × String × String)) :
    ∀ store, AtMostOnePerDay store → AtMostOnePerDay (applyCheckins s store cmds) := by
  induction cmds with
  | nil => exact fun store h => h
  | cons c rest ih =>
      intro store h
      obtain ⟨sid, today, t⟩ := c
      exact ih _ (checkin_preserves_inv s store sid today t h)

lemma checkedInCount_le (store : List AttendanceRecord) (sid : Nat) (d : String) :
    checkedInCount store sid d ≤ recCount store sid d := by
  induction store with
  | nil => exact Nat.le_refl 0
  | cons a as ih =>
      simp only [checkedInCount, recCount, List.filter_cons] at *
      by_cases h : matchesToday sid d a
      · by_cases h2 : a.checkIn.isSome <;> simp [h, h2] <;> omega
      · simpa [h] using ih

/-- C1: starting from any store with at most one record per
(studentId, date), after any sequence of check-in commits at most one
record with a non-empty `checkIn` exists per (studentId, date); a
check-in that finds an existing record for that (studentId, date) fails
with the already-checked-in error carrying the existing record's
`checkIn` and leaves the store unchanged; a first check-in of the day
creates the record. -/
theorem checkin_at_most_one_per_day (s : Settings) (store : List AttendanceRecord)
    (cmds : List (Nat × String × String)) (hinv : AtMostOnePerDay store) :
    (∀ sid d, checkedInCount (applyCheckins s store cmds) sid d ≤ 1)
    ∧ (∀ store2 sid today t idx,
        findIndex (matchesToday sid today) store2 = some idx →
          recordAttendance .checkin s store2 sid today t =
            (.err (.alreadyCheckedIn ((store2.getD idx default).checkIn)), store2))
    ∧ (∀ store2 sid today t,
        findIndex (matchesToday sid today) store2 = none →
          (recordAttendance .checkin s store2 sid today t).2 =
            { student_id := sid, date := today, checkIn := some t, checkOut := none,
              status := if jsLt s.lateTime t then Status.late else Status.present } :: store2) := by
  refine ⟨?_, ?_, ?_⟩
  · intro sid d
    exact Nat.le_trans (checkedInCount_le _ sid d) (applyCheckins_inv s cmds store hinv sid d)
  · intro store2 sid today t idx hidx
    simp [recordAttendance, hidx]
  · intro store2 sid today t hidx
    have h := checkin_success_eq s store2 sid today t hidx
    rw [h]

/-- Witness for C1: two same-day check-ins of student 1 leave one
checked-in record; a duplicate check-in errors with the stored time and
changes nothing; a first check-in creates the record. -/
theorem checkin_at_most_one_per_day_witness :
    checkedInCount (applyCheckins ⟨"08:30", "16:00"⟩ []
      [(1, "2026-10-12", "08:45"), (1, "2026-10-12", "09:00")]) 1 "2026-10-12" ≤ 1
    ∧ recordAttendance .checkin ⟨"08:30", "16:00"⟩
        [⟨1, "2026-10-12", some "08:15", none, .present⟩] 1 "2026-10-12" "09:00" =
        (.err (.alreadyCheckedIn (some "08:15")),
          [⟨1, "2026-10-12", some "08:15", none, .present⟩])
    ∧ (recordAttendance .checkin ⟨"08:30", "16:00"⟩ [] 1 "2026-10-12" "08:45").2 =
        [⟨1, "2026-10-12", some "08:45", none, .late⟩] :=
  ⟨(checkin_at_most_one_per_day ⟨"08:30", "16:00"⟩ []
      [(1, "2026-10-12", "08:45"), (1, "2026-10-12", "09:00")]
      (fun _ _ => Nat.zero_le 1)).1 1 "2026-10-12",
   (checkin_at_most_one_per_day ⟨"08:30", "16:00"⟩ [] []
      (fun _ _ => Nat.zero_le 1)).2.1
      [⟨1, "2026-10-12", some "08:15", none, .present⟩] 1 "2026-10-12" "09:00" 0 (by decide),
   (checkin_at_most_one_per_day ⟨"08:30", "16:00"⟩ [] []
      (fun _ _ => Nat.zero_le 1)).2.2 [] 1 "2026-10-12" "08:45" (by decide)⟩

/-- Witness for the amended C8. -/
theorem duplicate_rejection_checkin_only_witness :
    (∃ e, recordAttendance .checkin ⟨"08:30", "16:00"⟩
        [⟨1, "2026-10-12", some "08:15", some "15:00", .present⟩] 1 "2026-10-12" "15:30" =
        (.err e, [⟨1, "2026-10-12", some "08:15", some "15:00", .present⟩]))
    ∧ (recordAttendance .checkout ⟨"08:30", "16:00"⟩
        [⟨1, "2026-10-12", some "08:15", some "15:00", .present⟩] 1 "2026-10-12" "15:30").1 =
        .ok "15:30" (if jsLt "15:30" "16:00" then .earlyLeave else .present)
    ∧ ((recordAttendance .checkout ⟨"08:30", "16:00"⟩
        [⟨1, "2026-10-12", some "08:15", some "15:00", .present⟩] 1 "2026-10-12"
        "15:30").2.getD 0 default).checkOut = some "15:30" :=
  duplicate_rejection_checkin_only ⟨"08:30", "16:00"⟩
    [⟨1, "2026-10-12", some "08:15", some "15:00", .present⟩] 1 "2026-10-12" "15:30" 0
    (by decide) (by decide)

lemma cooldownGet_set (m : List (Nat × Nat)) (sid ts : Nat) :
    cooldownGet (cooldownSet m sid ts) sid = some ts := by
  induction m with
  | nil => simp [cooldownSet, cooldownGet]
  | cons kv rest ih =>
      obtain ⟨k, v⟩ := kv
      by_cases h : k == sid
      · simp [cooldownSet, cooldownGet, h]
      · simp [cooldownSet, cooldownGet, h]
        simpa [cooldownGet] using ih

lemma handleRecognized_of_processing (st : LoopState) (sid now : Nat)
    (h : st.processing = true) :
    (handleRecognized st sid now).2 = false
    ∧ (handleRecognized st sid now).1.processing = true := by
  by_cases he : cooldownElapsed st.cooldown sid now <;>
    simp [handleRecognized, startFastAttendance, he, h]

lemma handleRecognized_commit_processing (st : LoopState) (sid now : Nat)
    (h : (handleRecognized st sid now).2 = true) :
    (handleRecognized st sid now).1.processing = true := by
  by_cases hp : st.processing
  · exact (handleRecognized_of_processing st sid now hp).2
  · by_cases he : cooldownElapsed st.cooldown sid now <;>
      simp [handleRecognized, startFastAttendance, he, hp] at h ⊢

lemma loopTick_foldl_le_one (now : Nat) (l : List Nat) :
    ∀ acc : LoopState × Nat, acc.2 ≤ 1 → (1 ≤ acc.2 → acc.1.processing = true) →
      (l.foldl (fun acc sid =>
        let r := handleRecognized acc.1 sid now
        (r.1, acc.2 + if r.2 then 1 else 0)) acc).2 ≤ 1 := by
  induction l with
  | nil => exact fun acc h1 _ => h1
  | cons sid rest ih =>
      intro acc h1 h2
      simp only [List.foldl_cons]
      by_cases hb : (handleRecognized acc.1 sid now).2
      · have hp0 : acc.1.processing = false := by
          by_contra hp
          have := (handleRecognized_of_processing acc.1 sid now
            (eq_true_of_ne_false fun hf => hp hf)).1
          rw [this] at hb
          exact Bool.false_ne_true hb
        have hz : acc.2 = 0 := by
          by_contra hz
          have := h2 (Nat.one_le_iff_ne_zero.mpr hz)
          rw [this] at hp0
          exact absurd hp0 (by simp)
        apply ih
        · simp [hb, hz]
        · intro _
          exact handleRecognized_commit_processing acc.1 sid now hb
      · apply ih
        · simpa [hb] using h1
        · intro hone
          simp only [hb, if_neg Bool.false_ne_true, Nat.add_zero] at hone
          exact (handleRecognized_of_processing acc.1 sid now (h2 hone)).2

/-- C4: a recognition of an identity whose stored cooldown timestamp is
at most 8000 ms old triggers nothing — no commit attempt, no state
change — and a commit attempt can only start for an identity with a
stored timestamp when strictly more than 8000 ms have elapsed since
it. -/
theorem cooldown_blocks_within_8s (st : LoopState) (sid now last : Nat)
    (hlast : cooldownGet st.cooldown sid = some last)
    (hwithin : now - last ≤ 8000) :
    handleRecognized st sid now = (st, false)
    ∧ (∀ st2 now2 l, cooldownGet st2.cooldown sid = some l →
        (handleRecognized st2 sid now2).2 = true → now2 - l > 8000) := by
  constructor
  · have he : cooldownElapsed st.cooldown sid now = false := by
      simp [cooldownElapsed, hlast]
      omega
    simp [handleRecognized, he]
  · intro st2 now2 l hget hcommit
    by_cases he : cooldownElapsed st2.cooldown sid now2
    · simpa [cooldownElapsed, hget] using he
    · simp [handleRecognized, he] at hcommit

/-- Witness for C4: a re-recognition 4000 ms after the stored timestamp
changes nothing; one 9000 ms after a stored timestamp that does commit
is indeed past the window. -/
theorem cooldown_blocks_within_8s_witness :
    handleRecognized ⟨[(1, 1000)], false⟩ 1 5000 = (⟨[(1, 1000)], false⟩, false)
    ∧ 10000 - 1000 > 8000 :=
  ⟨(cooldown_blocks_within_8s ⟨[(1, 1000)], false⟩ 1 5000 1000 (by decide) (by decide)).1,
   (cooldown_blocks_within_8s ⟨[(1, 1000)], false⟩ 1 5000 1000 (by decide) (by decide)).2
     ⟨[(1, 1000)], false⟩ 10000 1000 (by decide) (by decide)⟩

/-- C5: while the processing flag is set a whole tick is skipped and
starts no commit; any single tick starts at most one commit attempt; and
a recognized identity handled while the flag is set is dropped (no
commit starts, the flag stays set). -/
theorem single_commit_in_flight (st : LoopState) (recognized : List Nat) (now : Nat) :
    (st.processing = true → loopTick st recognized now = (st, 0))
    ∧ (loopTick st recognized now).2 ≤ 1
    ∧ (∀ st2 sid, st2.processing = true →
        (handleRecognized st2 sid now).2 = false
        ∧ (handleRecognized st2 sid now).1.processing = true) := by
  refine ⟨fun h => by simp [loopTick, h], ?_, fun st2 sid h => handleRecognized_of_processing st2 sid now h⟩
  by_cases h : st.processing
  · simp [loopTick, h]
  · simp only [loopTick, h, Bool.false_eq_true, if_neg, ite_false]
    exact loopTick_foldl_le_one now recognized (st, 0) (Nat.zero_le 1) (by omega)

/-- Witness for C5: a tick in the processing state is skipped, and a
single identity handled with the flag set is dropped. -/
theorem single_commit_in_flight_witness :
    loopTick ⟨[], true⟩ [1, 2] 0 = (⟨[], true⟩, 0)
    ∧ (handleRecognized ⟨[], true⟩ 5 0).2 = false :=
  ⟨(single_commit_in_flight ⟨[], true⟩ [1, 2] 0).1 rfl,
   ((single_commit_in_flight ⟨[], true⟩ [1, 2] 0).2.2 ⟨[], true⟩ 5 rfl).1⟩

/-- C10: an identity that passes the cooldown check while the global
processing flag is set still has its cooldown timestamp reset to `now`
although no commit starts for it, and it then cannot trigger a commit
for the next 8000 ms. -/
theorem cooldown_reset_despite_drop (st : LoopState) (sid now : Nat)
    (helapsed : cooldownElapsed st.cooldown sid now = true)
    (hproc : st.processing = true) :
    handleRecognized st sid now =
      ({ cooldown := cooldownSet st.cooldown sid now, processing := st.processing }, false)
    ∧ (∀ now2, now2 - now ≤ 8000 →
        (handleRecognized (handleRecognized st sid now).1 sid now2).2 = false) := by
  have hmain : handleRecognized st sid now =
      ({ cooldown := cooldownSet st.cooldown sid now, processing := st.processing }, false) := by
    simp [handleRecognized, helapsed, startFastAttendance, hproc]
  refine ⟨hmain, fun now2 h2 => ?_⟩
  rw [hmain]
  have he2 : cooldownElapsed (cooldownSet st.cooldown sid now) sid now2 = false := by
    simp [cooldownElapsed, cooldownGet_set]
    omega
  simp [handleRecognized, he2]

/-- Witness for C10: with the flag set, a fresh identity's timestamp is
stored and a retry 4000 ms later is blocked. -/
theorem cooldown_reset_despite_drop_witness :
    handleRecognized ⟨[], true⟩ 1 0 = (⟨[(1, 0)], true⟩, false)
    ∧ (handleRecognized (handleRecognized ⟨[], true⟩ 1 0).1 1 4000).2 = false :=
  ⟨(cooldown_reset_despite_drop ⟨[], true⟩ 1 0 (by decide) rfl).1,
   (cooldown_reset_despite_drop ⟨[], true⟩ 1 0 (by decide) rfl).2 4000 (by decide)⟩

/-- C9 fails on the code: after one timer tick issues a detection call
that has not completed, a second timer tick issues another — the guard
checks only the processing flag, so two detection calls end up in
flight. -/
theorem detection_overlap_counterexample :
    (detRun detInit [DetEvent.timerFire]).outstanding = 1
    ∧ (detRun detInit [DetEvent.timerFire, DetEvent.timerFire]).outstanding = 2 := by
  decide

/-- C9 amended: a firing tick performs no detection call only while the
global commit-processing flag is set; with the flag clear a firing tick
always issues a new detection call, even when a previous call is
still outstanding, so detection calls can overlap. -/
theorem detection_guard_is_processing_only (s : DetState) :
    (s.processing = true → detStep s .timerFire = s)
    ∧ (s.processing = false →
        (detStep s .timerFire).outstanding = s.outstanding + 1) := by
  constructor <;> intro h <;> simp [detStep, h]

/-- Witness for the amended C9. -/
theorem detection_guard_is_processing_only_witness :
    detStep ⟨true, 1⟩ .timerFire = ⟨true, 1⟩
    ∧ (detStep ⟨false, 1⟩ .timerFire).outstanding = 2 :=
  ⟨(detection_guard_is_processing_only ⟨true, 1⟩).1 rfl,
   (detection_guard_is_processing_only ⟨false, 1⟩).2 rfl⟩

/-- C6: with exactly one detected face, a box-to-frame area ratio at or
below 0.05 or at or above 0.4 leaves capture disabled and the stored
descriptor cleared; a ratio strictly between the bounds stores the
descriptor and enables capture; zero or several faces always disable
capture and clear the descriptor. -/
theorem quality_gate_bounds {α : Type} (fw fh : ℚ) (b : Box) (d : α)
    (dets : List (Box × α)) :
    (faceSizeRatio fw fh b ≤ 0.05 ∨ 0.4 ≤ faceSizeRatio fw fh b →
        (regTick fw fh [(b, d)]).faceDescriptor = none
        ∧ (regTick fw fh [(b, d)]).showCaptureButton = false)
    ∧ (0.05 < faceSizeRatio fw fh b ∧ faceSizeRatio fw fh b < 0.4 →
        regTick fw fh [(b, d)] = ⟨some d, true, .goodQuality⟩)
    ∧ (dets.length ≠ 1 →
        (regTick fw fh dets).faceDescriptor = none
        ∧ (regTick fw fh dets).showCaptureButton = false) := by
  refine ⟨?_, ?_, ?_⟩
  · intro h
    have hc : ¬(0.05 < faceSizeRatio fw fh b ∧ faceSizeRatio fw fh b < 0.4) := by
      rcases h with h | h
      · exact fun hc => absurd hc.1 (not_lt.mpr h)
      · exact fun hc => absurd hc.2 (not_lt.mpr h)
    simp [regTick, hc]
  · intro h
    simp [regTick, h]
  · intro h
    cases dets with
    | nil => simp [regTick]
    | cons x rest =>
        cases rest with
        | nil => simp at h
        | cons y rest2 => simp [regTick]

/-- Witness for C6: in a 10 by 10 frame a 2 by 2 face (ratio 0.04) is
rejected, a 5 by 4 face (ratio 0.2) is accepted, and an empty detection
list is rejected. -/
theorem quality_gate_bounds_witness :
    ((regTick 10 10 [(Box.mk 2 2, (7 : Nat))]).faceDescriptor = none
      ∧ (regTick 10 10 [(Box.mk 2 2, (7 : Nat))]).showCaptureButton = false)
    ∧ regTick 10 10 [(Box.mk 5 4, (7 : Nat))] = ⟨some 7, true, .goodQuality⟩
    ∧ ((regTick 10 10 ([] : List (Box × Nat))).faceDescriptor = none
      ∧ (regTick 10 10 ([] : List (Box × Nat))).showCaptureButton = false) :=
  ⟨(quality_gate_bounds 10 10 (Box.mk 2 2) (7 : Nat) []).1
      (Or.inl (by norm_num [faceSizeRatio])),
   (quality_gate_bounds 10 10 (Box.mk 5 4) (7 : Nat) []).2.1
      ⟨by norm_num [faceSizeRatio], by norm_num [faceSizeRatio]⟩,
   (quality_gate_bounds 10 10 (Box.mk 2 2) (7 : Nat) ([] : List (Box × Nat))).2.2
      (by decide)⟩

end StudentApp
